import Mathlib

/-!
Verification of the broker connection-and-dispatch subsystem of uems-micro-builder.

The definitions below are a shallow embedding of the TypeScript sources:
  * AbstractBrokerHandler (messaging/AbstractBrokerHandler.ts): send, handleIncoming,
    connectionErrorHandler, setupConnection (close handler, ready path), onReady,
    and the module-level backoff state;
  * RabbitNetworkHandler (messaging/GenericRabbitNetworkHandler.ts): handleReply,
    the create/update/delete/read/other dispatch methods over a nanoevents emitter;
  * BindingAnnotations.ts: bindTo and bind.
Message bodies are JSON, modelled by the inductive JValue; the emitter and the
promise machinery are modelled by explicit outcome values.
-/

/-- JSON values as they appear in broker message bodies. Objects are ordered
association lists, matching the field order produced by JSON.stringify. -/
inductive JValue where
  | null : JValue
  | bool : Bool → JValue
  | num : Int → JValue
  | str : String → JValue
  | arr : List JValue → JValue
  | obj : List (String × JValue) → JValue

/-- Field lookup on a JSON object, as JavaScript property access sees a parsed
object: with duplicate keys the last occurrence wins, so we scan from the right.
Returns none when the value is not an object or the key is absent. -/
def jsonField (v : JValue) (k : String) : Option JValue :=
  match v with
  | JValue.obj fields => (fields.reverse.find? (fun p => p.1 = k)).map (fun p => p.2)
  | _ => none

/-- Truth of the JavaScript hasOwnProperty check on a parsed JSON object. -/
def jsonHasField (v : JValue) (k : String) : Bool :=
  (jsonField v k).isSome

/-- The GENERIC message bound of RabbitNetworkHandler: a validated inbound
message always carries msg_id, msg_intention and status, plus open domain
fields (the rest of the object). -/
structure GenericMsg where
  msg_id : Int
  msg_intention : String
  status : Int
  rest : List (String × JValue)

/-- Log events recorded by the embedded operations. Each constructor stands for
one log call site in the source; the exact log text is irrelevant to the claims,
only whether the site logs. -/
inductive LogEntry where
  | sendNoResponseChannel : LogEntry
  | sendInvalidOutgoing : LogEntry
  | gotResponseInfo : LogEntry
deriving DecidableEq

/-- The constant http2.constants.HTTP_STATUS_INTERNAL_SERVER_ERROR used by send. -/
def HTTP_STATUS_INTERNAL_SERVER_ERROR : Int := 500

/-- The environment send runs in: whether the private field holding the response
channel is defined, the injected outgoing validator (awaited, so modelled as its
resolved boolean), and the configured gateway (reply) exchange name. -/
structure SendEnv where
  responseChannel : Bool
  outgoingValidator : JValue → Bool
  gateway : String

/-- Observable outcome of one send call: the message published on the response
channel, if any, as (exchange, routing key, body), plus the log entries written.
Send is a total function of its environment: it never throws. -/
structure SendOutcome where
  published : Option (String × String × JValue)
  logs : List LogEntry

/-- The substitute error envelope built inline in AbstractBrokerHandler.send when
the outgoing validator rejects a response: exactly the three fields msg_id,
msg_intention and status, in source order, with status 500. -/
def errorEnvelope (messageID : Int) (messageIntention : String) : JValue :=
  JValue.obj [(("msg_id"), JValue.num messageID),
              (("msg_intention"), JValue.str messageIntention),
              (("status"), JValue.num HTTP_STATUS_INTERNAL_SERVER_ERROR)]

/-- Embedding of AbstractBrokerHandler.send(messageID, messageIntention, response).
If the response channel is undefined it logs and returns (publishing nothing).
If the outgoing validator rejects the response it logs and publishes the
substitute error envelope to the gateway exchange with empty routing key.
Otherwise it publishes the response body itself, unchanged. -/
def send (env : SendEnv) (messageID : Int) (messageIntention : String)
    (response : JValue) : SendOutcome :=
  if !env.responseChannel then
    { published := none, logs := [LogEntry.sendNoResponseChannel] }
  else if !env.outgoingValidator response then
    { published := some (env.gateway, (""), errorEnvelope messageID messageIntention),
      logs := [LogEntry.sendInvalidOutgoing] }
  else
    { published := some (env.gateway, (""), response), logs := [] }

/-- Embedding of RabbitNetworkHandler.handleReply: the reply callback handed to a
domain handler for inbound message User forwards the handler response to
super.send with the msg_id and msg_intention of User. -/
def handleReply (env : SendEnv) (User : GenericMsg) (response : JValue) : SendOutcome :=
  send env User.msg_id User.msg_intention response

/-- Reference send environment with an established channel and a validator that
accepts everything, used for concrete evaluations. -/
def envAcceptAll : SendEnv :=
  { responseChannel := true, outgoingValidator := fun _ => true, gateway := ("gw") }

/-- Reference send environment with an established channel and a validator that
rejects everything. -/
def envRejectAll : SendEnv :=
  { responseChannel := true, outgoingValidator := fun _ => false, gateway := ("gw") }

/-- Reference send environment whose response channel is not yet established. -/
def envNoChannel : SendEnv :=
  { responseChannel := false, outgoingValidator := fun _ => false, gateway := ("gw") }

/-- A concrete inbound request used in counterexamples. -/
def reqMsg : GenericMsg :=
  { msg_id := 1, msg_intention := ("CREATE"), status := 0, rest := [] }

/-- A concrete handler response carrying correlation fields different from those
of reqMsg. -/
def strayResponse : JValue :=
  JValue.obj [(("msg_id"), JValue.num 999),
              (("msg_intention"), JValue.str ("DELETE")),
              (("status"), JValue.num 200),
              (("result"), JValue.arr [])]

/-- Claim C1 is false as stated: when the outgoing validator accepts the
handler payload, send publishes the payload verbatim, so a reply whose
msg_id/msg_intention differ from the request is published unchanged. Here the
request has msg_id 1 and intention CREATE, yet the published reply carries
msg_id 999 and intention DELETE. -/
theorem C1_counterexample :
    (handleReply envAcceptAll reqMsg strayResponse).published
        = some (("gw"), (""), strayResponse)
      ∧ jsonField strayResponse ("msg_id") = some (JValue.num 999)
      ∧ jsonField strayResponse ("msg_intention") = some (JValue.str ("DELETE"))
      ∧ reqMsg.msg_id = 1
      ∧ reqMsg.msg_intention = ("CREATE") :=
  ⟨rfl, rfl, rfl, rfl, rfl⟩

/-- Claim C1, amended: every reply published in answer to a request echoes the
request msg_id and msg_intention provided the handler payload either fails the
outgoing validator (then the stamped error envelope is published) or itself
already carries the request correlation fields (then it is published verbatim);
the code stamps correlation fields only on the invalid path. -/
theorem C1_correlation (env : SendEnv) (User : GenericMsg) (response : JValue)
    (h : env.outgoingValidator response = false
         ∨ (jsonField response ("msg_id") = some (JValue.num User.msg_id)
            ∧ jsonField response ("msg_intention") = some (JValue.str User.msg_intention))) :
    ∀ ex rk body, (handleReply env User response).published = some (ex, rk, body) →
      jsonField body ("msg_id") = some (JValue.num User.msg_id)
        ∧ jsonField body ("msg_intention") = some (JValue.str User.msg_intention) := by
  intro ex rk body hpub
  cases hch : env.responseChannel with
  | false =>
    simp only [handleReply, send, hch, Bool.not_false, if_true] at hpub
    cases hpub
  | true =>
    cases hv : env.outgoingValidator response with
    | false =>
      simp only [handleReply, send, hch, hv, Bool.not_true, Bool.not_false,
        Bool.false_eq_true, if_false, if_true, Option.some.injEq, Prod.mk.injEq] at hpub
      obtain ⟨-, -, rfl⟩ := hpub
      exact ⟨rfl, rfl⟩
    | true =>
      rcases h with h | h
      · rw [hv] at h; cases h
      · simp only [handleReply, send, hch, hv, Bool.not_true, Bool.false_eq_true,
          if_false, Option.some.injEq, Prod.mk.injEq] at hpub
        obtain ⟨-, -, rfl⟩ := hpub
        exact h

/-- Witness for C1_correlation at concrete inputs: a payload echoing the request
correlation fields is published with those fields intact. -/
theorem C1_correlation_witness :
    jsonField (errorEnvelope 1 ("CREATE")) ("msg_id") = some (JValue.num reqMsg.msg_id)
      ∧ jsonField (errorEnvelope 1 ("CREATE")) ("msg_intention")
          = some (JValue.str reqMsg.msg_intention) :=
  C1_correlation envAcceptAll reqMsg (errorEnvelope 1 ("CREATE"))
    (Or.inr ⟨rfl, rfl⟩) ("gw") ("") (errorEnvelope 1 ("CREATE")) rfl

/-- Claim C2: when the outgoing validator rejects the payload and the reply
channel is established, the published message is exactly the object with fields
msg_id (the request id), msg_intention (the request intention) and status 500,
sent to the gateway exchange; and when the reply channel is not established,
send publishes nothing and logs (it is a total function, hence never throws). -/
theorem C2_send_invalid_or_no_channel (env : SendEnv) (User : GenericMsg) (response : JValue)
    (hv : env.outgoingValidator response = false) :
    (env.responseChannel = true →
       handleReply env User response
         = { published := some (env.gateway, (""), errorEnvelope User.msg_id User.msg_intention),
             logs := [LogEntry.sendInvalidOutgoing] })
    ∧ (env.responseChannel = false →
       handleReply env User response
         = { published := none, logs := [LogEntry.sendNoResponseChannel] }) := by
  constructor
  · intro hch
    simp only [handleReply, send, hch, hv, Bool.not_true, Bool.not_false,
      Bool.false_eq_true, if_false, if_true]
  · intro hch
    simp only [handleReply, send, hch, Bool.not_false, if_true]

/-- Witness for C2 at concrete inputs: with a rejecting validator and an
established channel the error envelope is published; with no channel nothing is. -/
theorem C2_send_witness :
    (handleReply envRejectAll reqMsg strayResponse
       = { published := some (("gw"), (""), errorEnvelope 1 ("CREATE")),
           logs := [LogEntry.sendInvalidOutgoing] })
    ∧ (handleReply envNoChannel reqMsg strayResponse
       = { published := none, logs := [LogEntry.sendNoResponseChannel] }) := by
  constructor
  · exact (C2_send_invalid_or_no_channel envRejectAll reqMsg strayResponse rfl).1 rfl
  · exact (C2_send_invalid_or_no_channel envNoChannel reqMsg strayResponse rfl).2 rfl

/-- Event channels emitted by the RabbitNetworkHandler dispatch methods: create,
update, delete, query (the read path) and any (the other path). -/
inductive EmitChannel where
  | create : EmitChannel
  | update : EmitChannel
  | delete : EmitChannel
  | query : EmitChannel
  | any : EmitChannel
deriving DecidableEq

/-- The channel an inbound validated message is dispatched to, following the
hasOwnProperty check and the switch on content.msg_intention in
AbstractBrokerHandler.handleIncoming, composed with the emitter channel each
RabbitNetworkHandler method uses (create/update/delete emit their own name, read
emits query, other emits any). The switch compares with strict equality against
the four string literals, so a present but non-string or unrecognized value
falls through to the default branch. -/
def dispatchTarget (content : JValue) : EmitChannel :=
  match jsonField content ("msg_intention") with
  | some (JValue.str s) =>
    if s = ("CREATE") then EmitChannel.create
    else if s = ("UPDATE") then EmitChannel.update
    else if s = ("DELETE") then EmitChannel.delete
    else if s = ("READ") then EmitChannel.query
    else EmitChannel.any
  | some _ => EmitChannel.any
  | none => EmitChannel.any

/-- One frame delivered by the broker to handleIncoming: the null cancellation
signal, a body that JSON.parse rejects, or a parsed JSON body with its routing
key. -/
inductive InboundFrame where
  | nullMsg : InboundFrame
  | unparseable : String → InboundFrame
  | parsed : JValue → String → InboundFrame

/-- Emissions of AbstractBrokerHandler.handleIncoming for one frame: null
messages and unparseable bodies are dropped after logging, a body rejected by
the incoming validator is dropped after logging, and a validated body is
dispatched to exactly one channel with the parsed content and the routing key. -/
def handleIncomingEmits (incomingValidator : JValue → Bool) :
    InboundFrame → List (EmitChannel × JValue × String)
  | InboundFrame.nullMsg => []
  | InboundFrame.unparseable _ => []
  | InboundFrame.parsed content rk =>
    if !incomingValidator content then []
    else [(dispatchTarget content, content, rk)]

/-- Characterization of dispatchTarget: each of the four recognized intentions
maps to its own channel, and the any channel is hit exactly when none of the
four string values is present. -/
theorem dispatchTarget_cases (content : JValue) :
    (dispatchTarget content = EmitChannel.create
      ↔ jsonField content ("msg_intention") = some (JValue.str ("CREATE")))
    ∧ (dispatchTarget content = EmitChannel.update
      ↔ jsonField content ("msg_intention") = some (JValue.str ("UPDATE")))
    ∧ (dispatchTarget content = EmitChannel.delete
      ↔ jsonField content ("msg_intention") = some (JValue.str ("DELETE")))
    ∧ (dispatchTarget content = EmitChannel.query
      ↔ jsonField content ("msg_intention") = some (JValue.str ("READ")))
    ∧ (dispatchTarget content = EmitChannel.any
      ↔ ¬ ∃ s, s ∈ [("CREATE"), ("UPDATE"), ("DELETE"), ("READ")]
              ∧ jsonField content ("msg_intention") = some (JValue.str s)) := by
  cases h : jsonField content ("msg_intention") with
  | none => simp [dispatchTarget, h]
  | some w =>
    cases w with
    | str s =>
      by_cases h1 : s = ("CREATE")
      · subst h1; simp [dispatchTarget, h]
      · by_cases h2 : s = ("UPDATE")
        · subst h2; simp [dispatchTarget, h]
        · by_cases h3 : s = ("DELETE")
          · subst h3; simp [dispatchTarget, h]
          · by_cases h4 : s = ("READ")
            · subst h4; simp [dispatchTarget, h]
            · simp [dispatchTarget, h, h1, h2, h3, h4]
    | null => simp [dispatchTarget, h]
    | bool b => simp [dispatchTarget, h]
    | num n => simp [dispatchTarget, h]
    | arr xs => simp [dispatchTarget, h]
    | obj fs => simp [dispatchTarget, h]

/-- Claim C3: a parsed message passing the incoming validator is dispatched to
exactly one channel; when msg_intention is one of the four recognized strings
that channel is the matching one (create, update, delete, or query for READ)
and is never the any channel; when msg_intention is absent or any other value,
the single emission is on the any channel. -/
theorem C3_intention_routing (v : JValue → Bool) (content : JValue) (rk : String)
    (hv : v content = true) :
    handleIncomingEmits v (InboundFrame.parsed content rk)
        = [(dispatchTarget content, content, rk)]
    ∧ (dispatchTarget content = EmitChannel.create
        ↔ jsonField content ("msg_intention") = some (JValue.str ("CREATE")))
    ∧ (dispatchTarget content = EmitChannel.update
        ↔ jsonField content ("msg_intention") = some (JValue.str ("UPDATE")))
    ∧ (dispatchTarget content = EmitChannel.delete
        ↔ jsonField content ("msg_intention") = some (JValue.str ("DELETE")))
    ∧ (dispatchTarget content = EmitChannel.query
        ↔ jsonField content ("msg_intention") = some (JValue.str ("READ")))
    ∧ (dispatchTarget content = EmitChannel.any
        ↔ ¬ ∃ s, s ∈ [("CREATE"), ("UPDATE"), ("DELETE"), ("READ")]
                ∧ jsonField content ("msg_intention") = some (JValue.str s)) := by
  have hchar := dispatchTarget_cases content
  refine ⟨?_, hchar.1, hchar.2.1, hchar.2.2.1, hchar.2.2.2.1, hchar.2.2.2.2⟩
  simp [handleIncomingEmits, hv]

/-- Witness for C3 at a concrete input: a validated READ message is emitted once
on the query channel. -/
theorem C3_intention_routing_witness :
    handleIncomingEmits (fun _ => true)
        (InboundFrame.parsed (JValue.obj [(("msg_intention"), JValue.str ("READ"))]) ("k"))
      = [(dispatchTarget (JValue.obj [(("msg_intention"), JValue.str ("READ"))]),
          JValue.obj [(("msg_intention"), JValue.str ("READ"))], ("k"))]
    ∧ dispatchTarget (JValue.obj [(("msg_intention"), JValue.str ("READ"))])
        = EmitChannel.query :=
  ⟨(C3_intention_routing (fun _ => true)
      (JValue.obj [(("msg_intention"), JValue.str ("READ"))]) ("k") rfl).1,
   ((C3_intention_routing (fun _ => true)
      (JValue.obj [(("msg_intention"), JValue.str ("READ"))]) ("k") rfl).2.2.2.2.1).mpr rfl⟩

/-- Outcome of one invoked piece of JavaScript as seen by its caller: it returns
normally, it throws synchronously, or it returns a promise that later rejects. -/
inductive ListenerOutcome where
  | ok : ListenerOutcome
  | throwsSync : ListenerOutcome
  | rejects : ListenerOutcome
deriving DecidableEq

/-- Behavior of the nanoevents emit loop over the registered listeners of one
event: the first component is whether emit itself throws synchronously (a
listener threw, ending the iteration), and the second counts listener-returned
promises that emit discards and that later reject; the emit implementation
iterates with forEach and ignores every listener return value. -/
def emitOutcome : List ListenerOutcome → Bool × Nat
  | [] => (false, 0)
  | ListenerOutcome.throwsSync :: _ => (true, 0)
  | ListenerOutcome.rejects :: rest =>
      ((emitOutcome rest).1, (emitOutcome rest).2 + 1)
  | ListenerOutcome.ok :: rest => emitOutcome rest

/-- Observable result of dispatching one classified inbound message:
how many error events the generic error handler emits, how many listener
rejections are silently discarded inside emit, and whether the promise returned
by handleIncoming itself ends up rejected (the consumer loop ignores that
promise, so delivery of later messages continues either way). -/
structure DispatchObs where
  errorEvents : Nat
  discardedRejections : Nat
  handleIncomingRejected : Bool
deriving DecidableEq

/-- Embedding of the dispatch statement
Promise.resolve(this.create(content, routingKey)).catch(genericErrorHandler)
inside the async handleIncoming, for a subclass dispatch method with the given
outcome: a normal return attaches a catch handler that never fires; a returned
rejecting promise is caught by genericErrorHandler, which logs and emits exactly
one error event; a synchronous throw happens while evaluating the argument of
Promise.resolve, so no catch handler is attached and the exception becomes a
rejection of the promise returned by handleIncoming. -/
def dispatchWrap : ListenerOutcome → DispatchObs
  | ListenerOutcome.ok =>
      { errorEvents := 0, discardedRejections := 0, handleIncomingRejected := false }
  | ListenerOutcome.rejects =>
      { errorEvents := 1, discardedRejections := 0, handleIncomingRejected := false }
  | ListenerOutcome.throwsSync =>
      { errorEvents := 0, discardedRejections := 0, handleIncomingRejected := true }

/-- Outcome of a RabbitNetworkHandler dispatch method (create, update, delete,
read, other): it synchronously emits to its listeners and returns undefined, so
it throws exactly when a listener throws synchronously and it never returns a
rejecting promise, because emit discards listener return values. -/
def rabbitMethodOutcome (listeners : List ListenerOutcome) : ListenerOutcome :=
  if (emitOutcome listeners).1 then ListenerOutcome.throwsSync else ListenerOutcome.ok

/-- Observable result of handleIncoming dispatching one classified message to a
RabbitNetworkHandler method whose registered listeners have the given outcomes. -/
def rabbitDispatchObs (listeners : List ListenerOutcome) : DispatchObs :=
  let d := dispatchWrap (rabbitMethodOutcome listeners)
  { errorEvents := d.errorEvents,
    discardedRejections := (emitOutcome listeners).2,
    handleIncomingRejected := d.handleIncomingRejected }

/-- Claim C8 fails on the code as written: a registered handler whose promise
rejects yields no error event at all (the rejection is discarded inside emit),
and a handler that throws synchronously yields no error event and leaves the
promise returned by handleIncoming rejected; the genericErrorHandler that would
emit the error event is reachable only from a dispatch method returning a
rejecting promise, which the RabbitNetworkHandler methods never produce, as the
last conjunct certifies for every listener list. Delivery of later messages is
unaffected in all cases because the consumer loop ignores the handleIncoming
promise. -/
theorem C8_handler_error_lost :
    rabbitDispatchObs [ListenerOutcome.rejects]
        = { errorEvents := 0, discardedRejections := 1, handleIncomingRejected := false }
    ∧ rabbitDispatchObs [ListenerOutcome.throwsSync]
        = { errorEvents := 0, discardedRejections := 0, handleIncomingRejected := true }
    ∧ dispatchWrap ListenerOutcome.rejects
        = { errorEvents := 1, discardedRejections := 0, handleIncomingRejected := false }
    ∧ ∀ listeners, (rabbitDispatchObs listeners).errorEvents = 0 := by
  refine ⟨rfl, rfl, rfl, ?_⟩
  intro listeners
  unfold rabbitDispatchObs rabbitMethodOutcome
  by_cases h : (emitOutcome listeners).1 = true
  · simp [h, dispatchWrap]
  · simp [h, dispatchWrap]

/-- Initial value of the module-level backoffTime variable, in milliseconds. -/
def initialBackoffTime : ℚ := 5000

/-- The module-level maximumBackoffTime variable, in milliseconds. -/
def maximumBackoffTime : ℚ := 120000

/-- The growth factor applied by connectionErrorHandler; the source literal 1.2
is modelled as the exact rational 6/5. -/
def backoffGrowthFactor : ℚ := 6 / 5

/-- Embedding of the backoff portion of connectionErrorHandler acting on the
module-level backoffTime variable: it arms the reconnect timer with delay
min(backoffTime, maximumBackoffTime) and then multiplies backoffTime by the
growth factor. Returns the armed delay and the new backoffTime. -/
def connectionErrorBackoff (backoffTime : ℚ) : ℚ × ℚ :=
  (min backoffTime maximumBackoffTime, backoffTime * backoffGrowthFactor)

/-- Value of the backoffTime variable after n consecutive failures have been
handled by connectionErrorHandler. -/
def backoffTimeAfter : ℕ → ℚ
  | 0 => initialBackoffTime
  | n + 1 => (connectionErrorBackoff (backoffTimeAfter n)).2

/-- The reconnect delay armed while handling the n-th consecutive failure, for
n ≥ 1: the handler reads backoffTime before growing it. -/
def scheduledDelay (n : ℕ) : ℚ :=
  (connectionErrorBackoff (backoffTimeAfter (n - 1))).1

/-- Closed form of the backoffTime variable. -/
theorem backoffTimeAfter_eq (k : ℕ) :
    backoffTimeAfter k = initialBackoffTime * backoffGrowthFactor ^ k := by
  induction k with
  | zero => simp [backoffTimeAfter]
  | succ k ih =>
    simp [backoffTimeAfter, connectionErrorBackoff, ih, pow_succ, mul_assoc]

/-- Claim C4 is false as stated: the delay armed after the first consecutive
failure is 5000 ms (the handler reads backoffTime before multiplying it), while
the claimed formula min(initial * growthFactor ^ 1, cap) gives 6000 ms. -/
theorem C4_counterexample :
    scheduledDelay 1 = 5000
    ∧ min (initialBackoffTime * backoffGrowthFactor ^ 1) maximumBackoffTime = 6000
    ∧ (5000 : ℚ) ≠ 6000 := by
  refine ⟨?_, ?_, by norm_num⟩
  · simp [scheduledDelay, backoffTimeAfter, connectionErrorBackoff,
      initialBackoffTime, maximumBackoffTime, min_def]
    norm_num
  · simp [initialBackoffTime, backoffGrowthFactor, maximumBackoffTime, min_def]
    norm_num

/-- Claim C4, amended: the delay armed after the N-th consecutive connection
failure equals min(initial * growthFactor ^ (N - 1), cap) with initial 5000 ms,
growth factor 1.2 and cap 120000 ms (the exponent is N - 1, not N, because the
handler arms the timer before growing the delay); the armed delay is
monotonically non-decreasing across failures and never exceeds the cap. -/
theorem C4_backoff_delay (n m : ℕ) (_h1 : 1 ≤ n) (hm : n ≤ m) :
    scheduledDelay n
        = min (initialBackoffTime * backoffGrowthFactor ^ (n - 1)) maximumBackoffTime
    ∧ scheduledDelay n ≤ scheduledDelay m
    ∧ scheduledDelay n ≤ maximumBackoffTime := by
  have hform : ∀ k : ℕ, scheduledDelay k
      = min (initialBackoffTime * backoffGrowthFactor ^ (k - 1)) maximumBackoffTime := by
    intro k
    simp [scheduledDelay, connectionErrorBackoff, backoffTimeAfter_eq]
  have hmono : scheduledDelay n ≤ scheduledDelay m := by
    rw [hform n, hform m]
    apply min_le_min _ le_rfl
    apply mul_le_mul_of_nonneg_left _ (by norm_num [initialBackoffTime])
    apply pow_le_pow_right₀ (by norm_num [backoffGrowthFactor])
    exact Nat.sub_le_sub_right hm 1
  refine ⟨hform n, hmono, ?_⟩
  rw [hform n]
  exact min_le_right _ _

/-- Witness for the amended C4 at concrete failure indices 2 and 5. -/
theorem C4_backoff_delay_witness :
    scheduledDelay 2
        = min (initialBackoffTime * backoffGrowthFactor ^ (2 - 1)) maximumBackoffTime
    ∧ scheduledDelay 2 ≤ scheduledDelay 5
    ∧ scheduledDelay 2 ≤ maximumBackoffTime :=
  C4_backoff_delay 2 5 (by norm_num) (by norm_num)

/-- Events affecting the _connected flag and the _waitingForReady queue of
AbstractBrokerHandler. Callbacks are identified by natural numbers. -/
inductive ReadyEvent where
  | onReady : ℕ → ReadyEvent
  | setupComplete : ReadyEvent
  | connClose : ReadyEvent
  | connectFail : ReadyEvent
deriving DecidableEq

/-- The observable state of the ready machinery: the _connected flag, the
_waitingForReady queue, and the sequence of callback invocations performed. -/
structure ReadyState where
  connected : Bool
  waitingForReady : List ℕ
  fired : List ℕ
deriving DecidableEq

/-- One step of the ready machinery, from the source: onReady invokes the
callback immediately when _connected is set and otherwise pushes it onto
_waitingForReady; the tail of setupConnection sets _connected and invokes every
queued callback in order without clearing the queue; the close listener clears
_connected; a failed connect attempt touches neither the flag nor the queue. -/
def readyStep (s : ReadyState) : ReadyEvent → ReadyState
  | ReadyEvent.onReady c =>
    if s.connected then { s with fired := s.fired ++ [c] }
    else { s with waitingForReady := s.waitingForReady ++ [c] }
  | ReadyEvent.setupComplete =>
    { s with connected := true, fired := s.fired ++ s.waitingForReady }
  | ReadyEvent.connClose => { s with connected := false }
  | ReadyEvent.connectFail => s

/-- The state at construction: not connected, empty queue, nothing fired. -/
def initialReadyState : ReadyState :=
  { connected := false, waitingForReady := [], fired := [] }

/-- Run the ready machinery over a sequence of events from the initial state. -/
def runReady (events : List ReadyEvent) : ReadyState :=
  events.foldl readyStep initialReadyState

/-- The callbacks registered by onReady during a sequence of events. -/
def queuedCallbacks (events : List ReadyEvent) : List ℕ :=
  events.filterMap (fun e => match e with
    | ReadyEvent.onReady c => some c
    | _ => none)

/-- Folding events that contain no setupComplete over a disconnected state never
sets the flag, fires nothing, and appends exactly the registered callbacks to
the queue. -/
theorem foldl_no_setupComplete (pre : List ReadyEvent) :
    ∀ s : ReadyState, s.connected = false → ReadyEvent.setupComplete ∉ pre →
      pre.foldl readyStep s
        = { connected := false,
            waitingForReady := s.waitingForReady ++ queuedCallbacks pre,
            fired := s.fired } := by
  induction pre with
  | nil =>
    intro s hs _
    cases s with
    | mk c w f => simp only [queuedCallbacks] at hs ⊢; simp [hs]
  | cons e rest ih =>
    intro s hs hn
    have hnr : ReadyEvent.setupComplete ∉ rest := fun hm => hn (List.mem_cons_of_mem _ hm)
    cases e with
    | onReady c =>
      simp only [List.foldl_cons, readyStep, hs, if_false]
      rw [ih _ rfl hnr]
      simp [queuedCallbacks, List.append_assoc]
    | setupComplete => exact absurd (List.mem_cons_self _ _) hn
    | connClose =>
      simp only [List.foldl_cons, readyStep]
      rw [ih _ rfl hnr]
      simp [queuedCallbacks]
    | connectFail =>
      simp only [List.foldl_cons, readyStep]
      rw [ih _ hs hnr]
      simp [queuedCallbacks]

/-- Claim C5 is false as stated: because setupConnection never clears
_waitingForReady, a callback queued before the first successful setup fires
again when a later reconnection completes its setup. In the scenario where
connect fails twice, then succeeds, then the connection closes and a reconnect
succeeds again, callback 0 fires twice. -/
theorem C5_counterexample :
    (runReady [ReadyEvent.onReady 0, ReadyEvent.connectFail, ReadyEvent.connectFail,
               ReadyEvent.setupComplete, ReadyEvent.connClose,
               ReadyEvent.setupComplete]).fired = [0, 0]
    ∧ ((runReady [ReadyEvent.onReady 0, ReadyEvent.connectFail, ReadyEvent.connectFail,
                  ReadyEvent.setupComplete, ReadyEvent.connClose,
                  ReadyEvent.setupComplete]).fired.count 0 = 2) :=
  ⟨rfl, rfl⟩

/-- Claim C5, amended: a callback passed to onReady while connected is invoked
immediately; a callback queued while disconnected fires exactly once per
registration when the first completed topology configuration runs the queue;
but the queue is never cleared (third conjunct), so each later completed
reconnection fires every previously queued callback again. -/
theorem C5_ready_queue (pre : List ReadyEvent) (c : ℕ) (s : ReadyState)
    (hpre : ReadyEvent.setupComplete ∉ pre) (hs : s.connected = true) :
    (readyStep s (ReadyEvent.onReady c)).fired = s.fired ++ [c]
    ∧ (runReady (pre ++ [ReadyEvent.setupComplete])).fired.count c
        = (queuedCallbacks pre).count c
    ∧ (runReady (pre ++ [ReadyEvent.setupComplete])).waitingForReady
        = queuedCallbacks pre := by
  have hrun : runReady (pre ++ [ReadyEvent.setupComplete])
      = { connected := true, waitingForReady := queuedCallbacks pre,
          fired := queuedCallbacks pre } := by
    unfold runReady
    rw [List.foldl_append]
    rw [foldl_no_setupComplete pre initialReadyState rfl hpre]
    simp [readyStep, initialReadyState]
  refine ⟨?_, ?_, ?_⟩
  · simp [readyStep, hs]
  · rw [hrun]
  · rw [hrun]

/-- Witness for the amended C5: with two failed attempts and two callbacks
queued, callback 0 fires exactly once at the single setup completion, the queue
still holds both callbacks afterwards, and a callback arriving while connected
fires immediately. -/
theorem C5_ready_queue_witness :
    (readyStep { connected := true, waitingForReady := [], fired := [7] }
        (ReadyEvent.onReady 0)).fired
      = ({ connected := true, waitingForReady := [], fired := [7] } : ReadyState).fired ++ [0]
    ∧ (runReady ([ReadyEvent.onReady 0, ReadyEvent.connectFail, ReadyEvent.connectFail,
                  ReadyEvent.onReady 1] ++ [ReadyEvent.setupComplete])).fired.count 0
        = (queuedCallbacks [ReadyEvent.onReady 0, ReadyEvent.connectFail,
                            ReadyEvent.connectFail, ReadyEvent.onReady 1]).count 0
    ∧ (runReady ([ReadyEvent.onReady 0, ReadyEvent.connectFail, ReadyEvent.connectFail,
                  ReadyEvent.onReady 1] ++ [ReadyEvent.setupComplete])).waitingForReady
        = queuedCallbacks [ReadyEvent.onReady 0, ReadyEvent.connectFail,
                           ReadyEvent.connectFail, ReadyEvent.onReady 1] :=
  C5_ready_queue
    [ReadyEvent.onReady 0, ReadyEvent.connectFail, ReadyEvent.connectFail,
     ReadyEvent.onReady 1] 0
    { connected := true, waitingForReady := [], fired := [7] } (by decide) rfl

/-- Counters describing the connection machinery of one handler instance:
connection attempts whose amqplib promise is unresolved, reconnect timers armed
by connectionErrorHandler and not yet fired, setupConnection sequences started
and not yet completed, and connections carrying the attached error listener. -/
structure ConnSysState where
  attemptsInFlight : ℕ
  timersArmed : ℕ
  setupsInFlight : ℕ
  errorHandlersAttached : ℕ
  started : Bool
deriving DecidableEq

/-- Events of the connection machinery. construct is the single constructor call
(which issues the first connect); timerFires is a reconnect timer elapsing
(setTimeout(this.connect, ...)); attemptFails and attemptSucceeds resolve one
in-flight connect promise; setupCompletes finishes one setupConnection sequence;
connError is an error event on a connection whose listener is attached, which
runs connectionErrorHandler. -/
inductive ConnEvent where
  | construct : ConnEvent
  | timerFires : ConnEvent
  | attemptFails : ConnEvent
  | attemptSucceeds : ConnEvent
  | setupCompletes : ConnEvent
  | connError : ConnEvent
deriving DecidableEq

/-- One step of the connection machinery, from the source: connect() has no
guard of any kind, so a constructor call or a firing timer always starts a new
attempt; a failing attempt runs connectionErrorHandler, which always arms a new
timer; a succeeding attempt starts setupConnection, whose first statements
attach the error listener; an error event on a listening connection runs
connectionErrorHandler, arming a further timer. Events whose trigger is not
available in the current state are invalid (none). -/
def connStep (s : ConnSysState) : ConnEvent → Option ConnSysState
  | ConnEvent.construct =>
    if s.started then none
    else some { s with started := true, attemptsInFlight := s.attemptsInFlight + 1 }
  | ConnEvent.timerFires =>
    if 1 ≤ s.timersArmed then
      some { s with timersArmed := s.timersArmed - 1,
                    attemptsInFlight := s.attemptsInFlight + 1 }
    else none
  | ConnEvent.attemptFails =>
    if 1 ≤ s.attemptsInFlight then
      some { s with attemptsInFlight := s.attemptsInFlight - 1,
                    timersArmed := s.timersArmed + 1 }
    else none
  | ConnEvent.attemptSucceeds =>
    if 1 ≤ s.attemptsInFlight then
      some { s with attemptsInFlight := s.attemptsInFlight - 1,
                    setupsInFlight := s.setupsInFlight + 1,
                    errorHandlersAttached := s.errorHandlersAttached + 1 }
    else none
  | ConnEvent.setupCompletes =>
    if 1 ≤ s.setupsInFlight then
      some { s with setupsInFlight := s.setupsInFlight - 1 }
    else none
  | ConnEvent.connError =>
    if 1 ≤ s.errorHandlersAttached then
      some { s with timersArmed := s.timersArmed + 1 }
    else none

/-- The state before the handler is constructed. -/
def initialConnSysState : ConnSysState :=
  { attemptsInFlight := 0, timersArmed := 0, setupsInFlight := 0,
    errorHandlersAttached := 0, started := false }

/-- Run the connection machinery over a sequence of events, refusing invalid
traces. -/
def runConn (events : List ConnEvent) : Option ConnSysState :=
  events.foldl (fun acc e => acc.bind (fun s => connStep s e)) (some initialConnSysState)

/-- A valid trace reaching two concurrent setupConnection sequences: the first
connection succeeds and completes setup, the established connection then emits
two error events, each arming a reconnect timer; both timers fire, both
attempts succeed, and the two setup sequences are then in flight together. -/
def doubleSetupTrace : List ConnEvent :=
  [ConnEvent.construct, ConnEvent.attemptSucceeds, ConnEvent.setupCompletes,
   ConnEvent.connError, ConnEvent.connError, ConnEvent.timerFires,
   ConnEvent.timerFires, ConnEvent.attemptSucceeds, ConnEvent.attemptSucceeds]

/-- Claim C6 is false as stated: the state reached by doubleSetupTrace is valid
and has two topology-initialization sequences in flight at once, because
connect() suppresses nothing. -/
theorem C6_counterexample :
    (runConn doubleSetupTrace).map (fun s => s.setupsInFlight) = some 2 := rfl

/-- Claim C6, amended: connect() contains no concurrency guard. From any
reachable state with a reconnect timer armed, the timer firing starts another
connection attempt regardless of the rest of the state, and that attempt
succeeding starts another setupConnection sequence on top of whatever is already
in flight; so no two setup sequences running concurrently is not an invariant. -/
theorem C6_no_suppression (tr : List ConnEvent) (s : ConnSysState)
    (h : runConn tr = some s) (ht : 1 ≤ s.timersArmed) :
    (runConn (tr ++ [ConnEvent.timerFires])).map (fun x => x.attemptsInFlight)
        = some (s.attemptsInFlight + 1)
    ∧ (runConn (tr ++ [ConnEvent.timerFires, ConnEvent.attemptSucceeds])).map
        (fun x => x.setupsInFlight) = some (s.setupsInFlight + 1) := by
  have hstep : connStep s ConnEvent.timerFires
      = some { s with timersArmed := s.timersArmed - 1,
                      attemptsInFlight := s.attemptsInFlight + 1 } := by
    simp [connStep, ht]
  constructor
  · unfold runConn at h ⊢
    rw [List.foldl_append, h]
    simp [hstep]
  · unfold runConn at h ⊢
    rw [List.foldl_append, h]
    simp [hstep, connStep, ht, Nat.le_add_left]

/-- Witness for the amended C6: after the constructor connect fails once, a
timer is armed; its firing starts a fresh attempt and a subsequent success
starts a fresh setup sequence. -/
theorem C6_no_suppression_witness :
    (runConn ([ConnEvent.construct, ConnEvent.attemptFails] ++ [ConnEvent.timerFires])).map
        (fun x => x.attemptsInFlight)
      = some (({ attemptsInFlight := 0, timersArmed := 1, setupsInFlight := 0,
                 errorHandlersAttached := 0, started := true } : ConnSysState).attemptsInFlight + 1)
    ∧ (runConn ([ConnEvent.construct, ConnEvent.attemptFails]
          ++ [ConnEvent.timerFires, ConnEvent.attemptSucceeds])).map
        (fun x => x.setupsInFlight)
      = some (({ attemptsInFlight := 0, timersArmed := 1, setupsInFlight := 0,
                 errorHandlersAttached := 0, started := true } : ConnSysState).setupsInFlight + 1) :=
  C6_no_suppression [ConnEvent.construct, ConnEvent.attemptFails]
    { attemptsInFlight := 0, timersArmed := 1, setupsInFlight := 0,
      errorHandlersAttached := 0, started := true } rfl (by decide)

/-- The lifecycle observables touched by the close listener and by
connectionErrorHandler: the _connected flag, armed reconnect timers, and error
events emitted to the subclass emitter. -/
structure LifecycleState where
  connected : Bool
  timersArmed : ℕ
  errorEventsEmitted : ℕ
deriving DecidableEq

/-- Embedding of the close listener installed by setupConnection: it clears
_connected, logs, and emits an error event via this.error; it does not call
connect, nor connectionErrorHandler, nor setTimeout. -/
def closeHandler (s : LifecycleState) : LifecycleState :=
  { connected := false, timersArmed := s.timersArmed,
    errorEventsEmitted := s.errorEventsEmitted + 1 }

/-- Embedding of connectionErrorHandler on the same observables: it logs, arms
one reconnect timer with setTimeout(this.connect, ...), grows the backoff
variable (modelled by connectionErrorBackoff), and emits an error event. -/
def connectionErrorTimerStep (s : LifecycleState) : LifecycleState :=
  { connected := s.connected, timersArmed := s.timersArmed + 1,
    errorEventsEmitted := s.errorEventsEmitted + 1 }

/-- Claim C7 is false as stated: on a close event over an established connection
the handler reverts the connected flag and emits an error event, but it arms no
reconnect timer — the timer count is unchanged at zero, and nothing else runs
unless the connection separately emits an error event. -/
theorem C7_counterexample :
    closeHandler { connected := true, timersArmed := 0, errorEventsEmitted := 0 }
      = { connected := false, timersArmed := 0, errorEventsEmitted := 1 } := rfl

/-- Claim C7, amended: the close listener reverts the connected state and fires
an error event but never arms the reconnect timer and never calls connect; the
reconnect timer is armed only by connectionErrorHandler, which runs on a
connection error event or a rejected connect promise, not on close. -/
theorem C7_close_handler (s : LifecycleState) :
    (closeHandler s).connected = false
    ∧ (closeHandler s).errorEventsEmitted = s.errorEventsEmitted + 1
    ∧ (closeHandler s).timersArmed = s.timersArmed
    ∧ (connectionErrorTimerStep s).timersArmed = s.timersArmed + 1 :=
  ⟨rfl, rfl, rfl, rfl⟩

/-- Routing-key matchers accepted by bindTo and bind: an exact string (the
typeof string branch), a regular expression modelled by its test predicate (the
typeof object branch), or the ANY wildcard symbol, for which neither typeof
branch applies so every routing key passes. -/
inductive RoutingKeyMatcher where
  | exact : String → RoutingKeyMatcher
  | regex : (String → Bool) → RoutingKeyMatcher
  | anyKey : RoutingKeyMatcher

/-- Whether a delivered routing key passes the matcher. -/
def matchesRoutingKey : RoutingKeyMatcher → String → Bool
  | RoutingKeyMatcher.exact s, routing => routing = s
  | RoutingKeyMatcher.regex t, routing => t routing
  | RoutingKeyMatcher.anyKey, _ => true

/-- Outcome of the callback that bindTo or bind registers on the emitter for
one delivered event: it returns without calling f, it throws synchronously, or
it invokes the wrapped callback f. -/
inductive BindOutcome where
  | skipped : BindOutcome
  | raised : BindOutcome
  | invoked : BindOutcome
deriving DecidableEq

/-- The intention string that bindTo requires for each action, per its four
assertion lines; the any action has no assertion. -/
def expectedIntention : EmitChannel → Option String
  | EmitChannel.create => some ("CREATE")
  | EmitChannel.delete => some ("DELETE")
  | EmitChannel.query => some ("READ")
  | EmitChannel.update => some ("UPDATE")
  | EmitChannel.any => none

/-- The intention assertions of the bindTo callback, in source order: for each
of the four concrete actions, a message whose msg_intention differs from the
expected value makes the callback throw before f is called. -/
def bindToIntentionCheck (action : EmitChannel) (evt : GenericMsg) : BindOutcome :=
  if action = EmitChannel.create ∧ evt.msg_intention ≠ ("CREATE") then BindOutcome.raised
  else if action = EmitChannel.delete ∧ evt.msg_intention ≠ ("DELETE") then BindOutcome.raised
  else if action = EmitChannel.query ∧ evt.msg_intention ≠ ("READ") then BindOutcome.raised
  else if action = EmitChannel.update ∧ evt.msg_intention ≠ ("UPDATE") then BindOutcome.raised
  else BindOutcome.invoked

/-- Embedding of the callback registered by bindTo: the routing-key guards run
first (returning without effect on a mismatch), then the intention assertions,
then the call of f. -/
def bindToWrapper (action : EmitChannel) (routingKey : RoutingKeyMatcher)
    (evt : GenericMsg) (routing : String) : BindOutcome :=
  match routingKey with
  | RoutingKeyMatcher.exact s =>
    if routing ≠ s then BindOutcome.skipped else bindToIntentionCheck action evt
  | RoutingKeyMatcher.regex t =>
    if !t routing then BindOutcome.skipped else bindToIntentionCheck action evt
  | RoutingKeyMatcher.anyKey => bindToIntentionCheck action evt

/-- Embedding of the callback registered by the global bind: the same
routing-key guards, but no intention assertion of any kind before f. -/
def bindWrapper (routingKey : RoutingKeyMatcher) (evt : GenericMsg)
    (routing : String) : BindOutcome :=
  match routingKey with
  | RoutingKeyMatcher.exact s =>
    if routing ≠ s then BindOutcome.skipped else BindOutcome.invoked
  | RoutingKeyMatcher.regex t =>
    if !t routing then BindOutcome.skipped else BindOutcome.invoked
  | RoutingKeyMatcher.anyKey => BindOutcome.invoked

/-- Claim C9: the callback wrapped by bindTo is invoked only when the routing
key matches the matcher, and on a matching message whose declared intention is
inconsistent with the bound action the registered callback throws synchronously
instead of invoking the wrapped callback. -/
theorem C9_bindTo_guard (action : EmitChannel) (routingKey : RoutingKeyMatcher)
    (evt : GenericMsg) (routing : String) (e : String) :
    (bindToWrapper action routingKey evt routing = BindOutcome.invoked →
       matchesRoutingKey routingKey routing = true)
    ∧ (matchesRoutingKey routingKey routing = true →
       expectedIntention action = some e → evt.msg_intention ≠ e →
       bindToWrapper action routingKey evt routing = BindOutcome.raised) := by
  have hcheck : expectedIntention action = some e → evt.msg_intention ≠ e →
      bindToIntentionCheck action evt = BindOutcome.raised := by
    intro he hne
    cases action with
    | create =>
      simp only [expectedIntention, Option.some.injEq] at he
      subst he
      simp [bindToIntentionCheck, hne]
    | delete =>
      simp only [expectedIntention, Option.some.injEq] at he
      subst he
      simp [bindToIntentionCheck, hne]
    | query =>
      simp only [expectedIntention, Option.some.injEq] at he
      subst he
      simp [bindToIntentionCheck, hne]
    | update =>
      simp only [expectedIntention, Option.some.injEq] at he
      subst he
      simp [bindToIntentionCheck, hne]
    | any => simp [expectedIntention] at he
  constructor
  · intro hinv
    cases routingKey with
    | exact s =>
      by_cases hr : routing = s
      · simp [matchesRoutingKey, hr]
      · simp [bindToWrapper, hr] at hinv
    | regex t =>
      by_cases hr : t routing = true
      · simp [matchesRoutingKey, hr]
      · simp [bindToWrapper, Bool.not_eq_true] at hinv ⊢
        rw [Bool.not_eq_true] at hr
        simp [hr] at hinv
    | anyKey => simp [matchesRoutingKey]
  · intro hm he hne
    cases routingKey with
    | exact s =>
      simp only [matchesRoutingKey, decide_eq_true_eq] at hm
      simp [bindToWrapper, hm, hcheck he hne]
    | regex t =>
      simp only [matchesRoutingKey] at hm
      simp [bindToWrapper, hm, hcheck he hne]
    | anyKey => simp [bindToWrapper, hcheck he hne]

/-- Witness for C9 at the scenario from the specification: an update-bound
handler on routing key foo.update receiving a matching message with intention
DELETE throws, and an invoked outcome implies the routing key matched. -/
theorem C9_bindTo_guard_witness :
    bindToWrapper EmitChannel.update (RoutingKeyMatcher.exact ("foo.update"))
        { msg_id := 2, msg_intention := ("DELETE"), status := 0, rest := [] }
        ("foo.update")
      = BindOutcome.raised :=
  (C9_bindTo_guard EmitChannel.update (RoutingKeyMatcher.exact ("foo.update"))
      { msg_id := 2, msg_intention := ("DELETE"), status := 0, rest := [] }
      ("foo.update") ("UPDATE")).2 rfl rfl (by decide)

/-- Claim C10: the callback registered through the global bind fires exactly
when the routing key matches the matcher, with no intention assertion: the
message content never makes it throw. -/
theorem C10_bind_no_check (routingKey : RoutingKeyMatcher) (evt : GenericMsg)
    (routing : String) :
    (bindWrapper routingKey evt routing = BindOutcome.invoked
       ↔ matchesRoutingKey routingKey routing = true)
    ∧ bindWrapper routingKey evt routing ≠ BindOutcome.raised := by
  cases routingKey with
  | exact s =>
    by_cases hr : routing = s
    · simp [bindWrapper, matchesRoutingKey, hr]
    · simp [bindWrapper, matchesRoutingKey, hr]
  | regex t =>
    by_cases hr : t routing = true
    · simp [bindWrapper, matchesRoutingKey, hr]
    · rw [Bool.not_eq_true] at hr
      simp [bindWrapper, matchesRoutingKey, hr]
  | anyKey => simp [bindWrapper, matchesRoutingKey]

/-- Witness for C10: a DELETE-intention message delivered to an update-bound
global handler with a matching routing key is still invoked, and is never a
throw. -/
theorem C10_bind_no_check_witness :
    (bindWrapper (RoutingKeyMatcher.exact ("foo.update"))
        { msg_id := 2, msg_intention := ("DELETE"), status := 0, rest := [] }
        ("foo.update") = BindOutcome.invoked
      ↔ matchesRoutingKey (RoutingKeyMatcher.exact ("foo.update")) ("foo.update") = true)
    ∧ bindWrapper (RoutingKeyMatcher.exact ("foo.update"))
        { msg_id := 2, msg_intention := ("DELETE"), status := 0, rest := [] }
        ("foo.update") ≠ BindOutcome.raised :=
  C10_bind_no_check (RoutingKeyMatcher.exact ("foo.update"))
    { msg_id := 2, msg_intention := ("DELETE"), status := 0, rest := [] }
    ("foo.update")
